import Mathlib

/-!
Shallow embedding of the parallel worker-execution subsystem of
`src/commands/learn.ts` (ralph-tui): retry schedule, retry loops
(plain and event-emitting TUI variant with cancellation), join
statistics, merge early-exit, per-worker backup serialization, and
the TUI event-listener set.
-/

namespace RalphTui

/-- `FolderGrouping` from learn.ts (lines 412-419). -/
structure FolderGrouping where
  name : String
  folders : List String
  priority : Nat
deriving Repr, DecidableEq

/-- `WorkerResult` from learn.ts (lines 538-561). `durationMs` is a
natural number of milliseconds; optional fields are `Option`. -/
structure WorkerResult where
  groupName : String
  folders : List String
  success : Bool
  durationMs : Nat
  stdout : String
  stderr : String
  error : Option String := none
  exitCode : Option Int := none
  startedAt : String := ""
  completedAt : String := ""
  canceled : Bool := false
deriving Repr, DecidableEq

/-- JavaScript number results of the speedup division: a finite
rational, Infinity (positive dividend over zero), or NaN (0/0). -/
inductive JsNum where
  | num (q : ℚ)
  | inf
  | nan
deriving Repr, DecidableEq

/-- JavaScript division of two nonnegative integers: `a / 0` is
Infinity for `a > 0` and NaN for `a = 0`; otherwise exact. -/
def jsDivNat (a b : Nat) : JsNum :=
  if b = 0 then (if a = 0 then JsNum.nan else JsNum.inf)
  else JsNum.num ((a : ℚ) / (b : ℚ))

/-- The speedup computation at the join barrier, from learn.ts lines
3097-3098 and 3900-3901:
`sequentialDurationMs > 0 ? sequentialDurationMs / totalDurationMs : 1`. -/
def speedupFactor (sequentialDurationMs totalDurationMs : Nat) : JsNum :=
  if 0 < sequentialDurationMs then jsDivNat sequentialDurationMs totalDurationMs
  else JsNum.num 1

/-- The statistics block of `WorkerExecutionSummary` (learn.ts lines
566-591) that the claims are about. -/
structure WorkerExecutionSummary where
  workerCount : Nat
  successCount : Nat
  failedCount : Nat
  totalDurationMs : Nat
  sequentialDurationMs : Nat
  speedupFactor : JsNum
  workers : List WorkerResult
deriving Repr, DecidableEq

/-- The join barrier of `executeWorkersInParallel` (learn.ts lines
3076-3131) and `executeWorkersWithTui` (lines 3888-3901, 3995-4008):
`workers = plan.groupings.map(...)` joined by `Promise.all`,
`successCount = workers.filter(w => w.success).length`,
`failedCount = workers.filter(w => !w.success).length`,
`sequentialDurationMs = workers.reduce((sum, w) => sum + w.durationMs, 0)`.
`runWorker` stands for the per-grouping settled result. -/
def joinExecutionSummary (groupings : List FolderGrouping)
    (runWorker : FolderGrouping → WorkerResult)
    (totalDurationMs : Nat) : WorkerExecutionSummary :=
  let workers := groupings.map runWorker
  let sequentialDurationMs := (workers.map WorkerResult.durationMs).sum
  { workerCount := groupings.length
    successCount := (workers.filter (fun w => w.success)).length
    failedCount := (workers.filter (fun w => !w.success)).length
    totalDurationMs := totalDurationMs
    sequentialDurationMs := sequentialDurationMs
    speedupFactor := speedupFactor sequentialDurationMs totalDurationMs
    workers := workers }

/-- `RETRY_DELAYS_MS = [0, 5000, 10000]` (learn.ts line 2954). -/
def RETRY_DELAYS_MS : List Nat := [0, 5000, 10000]

/-- `getRetryDelayMs` (learn.ts lines 2959-2965): table lookup for an
index inside the table, last entry beyond it. -/
def getRetryDelayMs (attempt : Nat) : Nat :=
  if attempt < RETRY_DELAYS_MS.length then RETRY_DELAYS_MS.getD attempt 0
  else RETRY_DELAYS_MS.getD (RETRY_DELAYS_MS.length - 1) 0

/-- Observable actions of the retry loops: a `worker:retrying`
emission with its payload, a backoff sleep, a process spawn (one
underlying worker-task invocation), and the final `worker:complete`
or `worker:error` emissions of the TUI variant. -/
inductive RetryEvent where
  | retrying (attempt maxRetries delayMs : Nat) (previousError : String)
  | sleepMs (delayMs : Nat)
  | spawn (attempt : Nat)
  | complete (workerId : String)
  | errored (workerId : String)
deriving Repr, DecidableEq

/-- The events emitted at the top of a loop iteration with
`attempt > 0` (learn.ts lines 2982-2991 and 3834-3853): the
`worker:retrying` emission with
`previousError` defaulting to `Unknown error`, then a sleep
when `delayMs > 0`. For `attempt = 0` nothing is emitted. -/
def retryPreEvents (attempt maxRetries : Nat) (last : Option WorkerResult) : List RetryEvent :=
  if attempt = 0 then []
  else
    let d := getRetryDelayMs (attempt - 1)
    RetryEvent.retrying attempt maxRetries d
        ((Option.bind last WorkerResult.error).getD "Unknown error")
      :: (if 0 < d then [RetryEvent.sleepMs d] else [])

/-- Loop body of `executeWorkerWithRetry` (learn.ts lines 2971-3007),
written as structural recursion on `remaining = maxRetries - attempt`.
`oracle i` is the settled `WorkerResult` of the i-th invocation of
`executeWorker`. At `remaining = 0` the loop is at its last permitted
attempt (`attempt === maxRetries`) and returns its result either way;
otherwise it returns on success and recurses on failure. The second
component is the trace of emitted events. -/
def retryGo (oracle : Nat → WorkerResult) (maxRetries : Nat) :
    Nat → Nat → Option WorkerResult → WorkerResult × List RetryEvent
  | attempt, 0, last =>
      (oracle attempt, retryPreEvents attempt maxRetries last ++ [RetryEvent.spawn attempt])
  | attempt, remaining + 1, last =>
      let pre := retryPreEvents attempt maxRetries last
      let r := oracle attempt
      if r.success then (r, pre ++ [RetryEvent.spawn attempt])
      else
        let rest := retryGo oracle maxRetries (attempt + 1) remaining (some r)
        (rest.1, pre ++ RetryEvent.spawn attempt :: rest.2)

/-- `executeWorkerWithRetry` (learn.ts lines 2971-3007): the loop
starts at attempt 0 with `maxRetries` further attempts available and
no previous result. -/
def executeWorkerWithRetry (oracle : Nat → WorkerResult) (maxRetries : Nat) :
    WorkerResult × List RetryEvent :=
  retryGo oracle maxRetries 0 maxRetries none

/-- Number of underlying worker-task invocations recorded in a trace. -/
def spawnCount (events : List RetryEvent) : Nat :=
  events.countP (fun e => match e with | RetryEvent.spawn _ => true | _ => false)

/-- Number of `worker:retrying` emissions recorded in a trace. -/
def retryingCount (events : List RetryEvent) : Nat :=
  events.countP (fun e => match e with | RetryEvent.retrying _ _ _ _ => true | _ => false)

/-- The immediate result of `executeSingleWorkerAttempt` when
`isCanceling` is already set (learn.ts lines 3689-3704): no process is
spawned, the result is canceled with error `Canceled before starting`. -/
def canceledBeforeStartResult (group : FolderGrouping) : WorkerResult :=
  { groupName := group.name
    folders := group.folders
    success := false
    durationMs := 0
    stdout := ""
    stderr := ""
    error := some "Canceled before starting"
    canceled := true }

/-- `executeSingleWorkerAttempt` (learn.ts lines 3686-3828) at attempt
index `a`: the cancellation flag is consulted once, before spawning;
if clear, the process is spawned (recorded as a `spawn` event) and the
attempt settles to `oracle a`. -/
def executeSingleWorkerAttempt (cancel : Nat → Bool) (oracle : Nat → WorkerResult)
    (group : FolderGrouping) (a : Nat) : WorkerResult × List RetryEvent :=
  if cancel a then (canceledBeforeStartResult group, [])
  else (oracle a, [RetryEvent.spawn a])

/-- Loop body of `executeWorkerWithEvents` (learn.ts lines 3827-3884),
the TUI retry loop: identical control flow to `retryGo`, but each
attempt goes through `executeSingleWorkerAttempt` (which is where the
only cancellation check lives), and a `worker:complete` or
`worker:error` event is emitted at the return points. The
`worker:retrying` emission and the backoff sleep happen before the
cancellation flag is ever consulted. -/
def retryEventsGo (cancel : Nat → Bool) (oracle : Nat → WorkerResult)
    (group : FolderGrouping) (maxRetries : Nat) :
    Nat → Nat → Option WorkerResult → WorkerResult × List RetryEvent
  | attempt, 0, last =>
      let pre := retryPreEvents attempt maxRetries last
      let ar := executeSingleWorkerAttempt cancel oracle group attempt
      let fin := if ar.1.success then RetryEvent.complete group.name
                 else RetryEvent.errored group.name
      (ar.1, pre ++ ar.2 ++ [fin])
  | attempt, remaining + 1, last =>
      let pre := retryPreEvents attempt maxRetries last
      let ar := executeSingleWorkerAttempt cancel oracle group attempt
      if ar.1.success then (ar.1, pre ++ ar.2 ++ [RetryEvent.complete group.name])
      else
        let rest := retryEventsGo cancel oracle group maxRetries (attempt + 1) remaining (some ar.1)
        (rest.1, pre ++ ar.2 ++ rest.2)

/-- `executeWorkerWithEvents` (learn.ts lines 3827-3884). -/
def executeWorkerWithEvents (cancel : Nat → Bool) (oracle : Nat → WorkerResult)
    (group : FolderGrouping) (maxRetries : Nat) : WorkerResult × List RetryEvent :=
  retryEventsGo cancel oracle group maxRetries 0 maxRetries none

/-- Process exit signals relevant to the close handler. -/
inductive ExitSignal where
  | sigterm
  | sigkill
  | other
deriving Repr, DecidableEq

/-- Rendering of the nullable exit code inside the error message,
as JavaScript template interpolation renders it. -/
def showExitCode (code : Option Int) : String :=
  match code with
  | some n => toString n
  | none => "null"

/-- The `close` handler of `executeSingleWorkerAttempt` (learn.ts
lines 3787-3811): `wasCanceledDuringExecution` is set from the
cancellation flag or a SIGTERM/SIGKILL signal; success requires exit
code 0 and no cancellation; the error text is `Worker canceled` under
cancellation, otherwise the exit-code message for a nonzero code. -/
def singleAttemptCloseResult (group : FolderGrouping)
    (startedAt completedAt : String) (durationMs : Nat) (stdout stderr : String)
    (code : Option Int) (signal : Option ExitSignal) (isCanceling : Bool) : WorkerResult :=
  let wasCanceled := isCanceling || signal == some ExitSignal.sigterm
      || signal == some ExitSignal.sigkill
  { groupName := group.name
    folders := group.folders
    success := (code == some 0) && !wasCanceled
    durationMs := durationMs
    stdout := stdout
    stderr := stderr
    exitCode := code
    error := if wasCanceled then some "Worker canceled"
             else if code == some 0 then none
             else some ("Worker exited with code " ++ showExitCode code)
    canceled := wasCanceled
    startedAt := startedAt
    completedAt := completedAt }

/-- The `error` (spawn-failure) handler of `executeSingleWorkerAttempt`
(learn.ts lines 3769-3785): always a failure with a spawn-failure
message and no exit code. -/
def singleAttemptSpawnErrorResult (group : FolderGrouping)
    (startedAt completedAt : String) (durationMs : Nat) (stdout stderr : String)
    (message : String) : WorkerResult :=
  { groupName := group.name
    folders := group.folders
    success := false
    durationMs := durationMs
    stdout := stdout
    stderr := stderr
    error := some ("Failed to execute worker: " ++ message)
    startedAt := startedAt
    completedAt := completedAt }

/-- The `close` handler of the plain `executeWorker` (learn.ts lines
2916-2930): no cancellation concept, success is exit code 0. -/
def executeWorkerCloseResult (group : FolderGrouping)
    (startedAt completedAt : String) (durationMs : Nat) (stdout stderr : String)
    (code : Option Int) : WorkerResult :=
  { groupName := group.name
    folders := group.folders
    success := code == some 0
    durationMs := durationMs
    stdout := stdout
    stderr := stderr
    exitCode := code
    error := if code == some 0 then none
             else some ("Worker exited with code " ++ showExitCode code)
    startedAt := startedAt
    completedAt := completedAt }

/-- `MergeResult` from learn.ts (lines 596-609). -/
structure MergeResult where
  success : Bool
  mergedContent : Option String := none
  outputPath : Option String := none
  backupPath : Option String := none
  error : Option String := none
  durationMs : Nat := 0
deriving Repr, DecidableEq

/-- The filter at learn.ts line 3327:
`workerResults.workers.filter(w => w.success && w.stdout)` — JavaScript
truthiness makes the empty string falsy, so a successful worker with
empty stdout is excluded. -/
def successfulWorkers (workers : List WorkerResult) : List WorkerResult :=
  workers.filter (fun w => w.success && !w.stdout.isEmpty)

/-- The early-exit branch of `mergeWorkerOutputs` (learn.ts lines
3329-3336): when the filtered list is empty, return the
`No successful worker outputs to merge` failure; otherwise the merge
proceeds to synthesis (`none` here). -/
def mergeEarlyExit (workers : List WorkerResult) (backupPath : Option String)
    (durationMs : Nat) : Option MergeResult :=
  if (successfulWorkers workers).length == 0 then
    some { success := false
           error := some "No successful worker outputs to merge"
           backupPath := backupPath
           durationMs := durationMs }
  else none

/-- Character replacement of the regex `[:.]` with `-`. -/
def dashColonDot (c : Char) : Char :=
  if c = ':' || c = '.' then '-' else c

/-- The timestamp of `savePartialOutputsBackup` (learn.ts line 3247):
`new Date().toISOString().replace(/[:.]/g, '-').slice(0, 19)`, taking
the current instant in ISO-8601 form as input; the global regex
replacement is a per-character map and `slice(0, 19)` keeps the first
19 characters. -/
def backupTimestamp (isoNow : String) : String :=
  String.mk ((isoNow.data.map dashColonDot).take 19)

/-- Prefix test on strings through their character lists (used to
state path-pattern properties). -/
def strStartsWith (s p : String) : Bool :=
  p.data.isPrefixOf s.data

/-- The backup path of `savePartialOutputsBackup` (learn.ts line 3248):
`path.join(rootPath, ".ralph-partial-outputs-<timestamp>.md")`, with
`path.join` as plain separator concatenation. -/
def savePartialOutputsBackupPath (rootPath isoNow : String) : String :=
  rootPath ++ "/" ++ ".ralph-partial-outputs-" ++ backupTimestamp isoNow ++ ".md"

/-- The path pattern stated by the spec sentence for the backup
artifact, written from its words: `<root>/.partial-outputs-<ts>.md`. -/
def specClaimedBackupPath (rootPath timestamp : String) : String :=
  rootPath ++ "/" ++ ".partial-outputs-" ++ timestamp ++ ".md"

/-- Two-decimal seconds rendering used in the backup duration line,
modelling `(worker.durationMs / 1000).toFixed(2)` by rounding to the
nearest centisecond. -/
def toFixed2Seconds (ms : Nat) : String :=
  let centis := (ms + 5) / 10
  let frac := centis % 100
  toString (centis / 100) ++ "." ++
    (if frac < 10 then "0" ++ toString frac else toString frac)

/-- The lines pushed for one worker by the backup loop of
`savePartialOutputsBackup` (learn.ts lines 3259-3292): header, status,
duration, folders, then stdout / trimmed-nonempty stderr / error
blocks when present, then a separator. -/
def workerEntryLines (w : WorkerResult) : List String :=
  ["## Worker: " ++ w.groupName, "",
   "- **Status**: " ++ (if w.success then "✓ Success" else "✗ Failed"),
   "- **Duration**: " ++ toFixed2Seconds w.durationMs ++ "s",
   "- **Folders**: " ++ String.intercalate ", " w.folders, ""]
  ++ (if !w.stdout.isEmpty then ["### Output:", "", w.stdout, ""] else [])
  ++ (if !w.stderr.isEmpty && !w.stderr.trim.isEmpty then
        ["### Errors:", "", "```", w.stderr, "```", ""] else [])
  ++ (match w.error with
      | some e => if e.isEmpty then [] else ["**Error**: " ++ e, ""]
      | none => [])
  ++ ["---", ""]

/-- One backup entry per worker record: the loop of
`savePartialOutputsBackup` iterates `workerResults.workers` without
filtering. -/
def savePartialOutputsBackupEntries (workers : List WorkerResult) : List (List String) :=
  workers.map workerEntryLines

/-- The preamble lines of the backup artifact (learn.ts lines
3251-3257). -/
def backupPreamble (isoNow : String) : List String :=
  ["# Partial Worker Outputs (Backup)", "",
   "> Generated by ralph-tui learn on " ++ isoNow,
   "> This file contains raw worker outputs preserved as backup.", "",
   "---", ""]

/-- The full line list of the backup artifact, joined with newlines by
the source before writing. -/
def savePartialOutputsBackupLines (workers : List WorkerResult) (isoNow : String) : List String :=
  backupPreamble isoNow ++ (savePartialOutputsBackupEntries workers).flatten

/-- The TUI event-listener registry (learn.ts lines 3553-3565) is a
JavaScript `Set` of listener functions iterated in insertion order;
it is modelled as a duplicate-free list of listener identifiers.
`subscribe` is `listeners.add`. -/
def subscribe (listener : Nat) (listeners : List Nat) : List Nat :=
  if listener ∈ listeners then listeners else listeners ++ [listener]

/-- The unsubscribe closure returned by `subscribe`
(learn.ts line 3564): `() => listeners.delete(listener)`. -/
def unsubscribe (listener : Nat) (listeners : List Nat) : List Nat :=
  listeners.erase listener

/-- `emit` (learn.ts lines 3555-3559) invokes every current listener
once, in registry order: the invocation list is the current registry. -/
def emitCalls (listeners : List Nat) : List Nat :=
  listeners

/-- Amended spec pattern for the backup path: the prefix the source
actually uses is `.ralph-partial-outputs-` and the timestamp is the
ISO-8601 instant with `:` and `.` replaced by `-`, truncated to 19
characters. -/
def specAmendedBackupPath (rootPath isoNow : String) : String :=
  rootPath ++ "/" ++ ".ralph-partial-outputs-"
    ++ String.mk ((isoNow.data.map dashColonDot).take 19) ++ ".md"

/-- A concrete grouping used to instantiate theorems. -/
def sampleGroup : FolderGrouping :=
  { name := "core", folders := ["src"], priority := 1 }

/-- A concrete successful worker result (nonempty stdout). -/
def sampleSuccess : WorkerResult :=
  { groupName := "core", folders := ["src"], success := true, durationMs := 5
    stdout := "report", stderr := "", exitCode := some 0 }

/-- A concrete successful worker result with empty stdout. -/
def sampleSuccessEmptyStdout : WorkerResult :=
  { groupName := "core", folders := ["src"], success := true, durationMs := 5
    stdout := "", stderr := "", exitCode := some 0 }

/-- A concrete failed worker result. -/
def sampleFailure : WorkerResult :=
  { groupName := "core", folders := ["src"], success := false, durationMs := 7
    stdout := "", stderr := "boom", error := some "Worker exited with code 1"
    exitCode := some 1 }

/-- An attempt oracle that fails at attempt 0 and succeeds at 1. -/
def failThenSucceed : Nat → WorkerResult :=
  fun i => if i = 1 then sampleSuccess else sampleFailure

/-! ## Helper lemmas -/

/-- The clamped table lookup agrees with `table[min(j, 2)]`. -/
lemma getRetryDelayMs_eq_min (j : Nat) :
    getRetryDelayMs j = RETRY_DELAYS_MS.getD (min j 2) 0 := by
  match j with
  | 0 => rfl
  | 1 => rfl
  | 2 => rfl
  | (j + 3) =>
    have h1 : ¬ (j + 3 < RETRY_DELAYS_MS.length) := by
      simp [RETRY_DELAYS_MS]
    have h2 : min (j + 3) 2 = 2 := by omega
    simp [getRetryDelayMs, RETRY_DELAYS_MS, h1, h2]

/-- The pre-attempt events contain no spawn. -/
lemma spawnCount_retryPreEvents (a m : Nat) (last : Option WorkerResult) :
    spawnCount (retryPreEvents a m last) = 0 := by
  unfold retryPreEvents spawnCount
  split
  · simp
  · by_cases hd : 0 < getRetryDelayMs (a - 1) <;> simp [hd, List.countP_cons]

/-- The pre-attempt events contain one retrying emission unless this
is the first attempt. -/
lemma retryingCount_retryPreEvents (a m : Nat) (last : Option WorkerResult) :
    retryingCount (retryPreEvents a m last) = if a = 0 then 0 else 1 := by
  unfold retryPreEvents retryingCount
  split
  · simp_all
  · by_cases hd : 0 < getRetryDelayMs (a - 1) <;> simp_all [hd, List.countP_cons]

/-- Every retrying emission in the pre-attempt events carries the
delay of the table at its own attempt index. -/
lemma retrying_mem_retryPreEvents (a m : Nat) (last : Option WorkerResult)
    (k mr d : Nat) (pe : String)
    (h : RetryEvent.retrying k mr d pe ∈ retryPreEvents a m last) :
    k = a ∧ d = getRetryDelayMs (a - 1) := by
  unfold retryPreEvents at h
  split at h
  · simp at h
  · rcases List.mem_cons.mp h with h1 | h2
    · injection h1 with hk hmr hd hpe
      exact ⟨hk, hd⟩
    · split at h2 <;> simp at h2

/-- Every retrying emission of the plain retry loop carries the delay
`getRetryDelayMs (k - 1)` for its retry index `k`. -/
lemma retrying_delay_retryGo (oracle : Nat → WorkerResult) (m : Nat) :
    ∀ remaining attempt last k mr d pe,
      RetryEvent.retrying k mr d pe ∈ (retryGo oracle m attempt remaining last).2 →
      d = getRetryDelayMs (k - 1) := by
  intro remaining
  induction remaining with
  | zero =>
    intro attempt last k mr d pe h
    simp only [retryGo] at h
    rcases List.mem_append.mp h with h1 | h2
    · obtain ⟨hk, hd⟩ := retrying_mem_retryPreEvents _ _ _ _ _ _ _ h1
      rw [hd, hk]
    · simp at h2
  | succ remaining ih =>
    intro attempt last k mr d pe h
    simp only [retryGo] at h
    split at h
    · rcases List.mem_append.mp h with h1 | h2
      · obtain ⟨hk, hd⟩ := retrying_mem_retryPreEvents _ _ _ _ _ _ _ h1
        rw [hd, hk]
      · simp at h2
    · rcases List.mem_append.mp h with h1 | h2
      · obtain ⟨hk, hd⟩ := retrying_mem_retryPreEvents _ _ _ _ _ _ _ h1
        rw [hd, hk]
      · rcases List.mem_cons.mp h2 with h3 | h4
        · exact absurd h3 (by simp)
        · exact ih (attempt + 1) _ k mr d pe h4

/-- When every attempt up to the budget fails, the plain retry loop
runs the last permitted attempt and spawns once per iteration. -/
lemma retryGo_all_fail (oracle : Nat → WorkerResult) (m : Nat) :
    ∀ remaining attempt last,
      (∀ i, attempt ≤ i → i ≤ attempt + remaining → (oracle i).success = false) →
      (retryGo oracle m attempt remaining last).1 = oracle (attempt + remaining)
      ∧ spawnCount (retryGo oracle m attempt remaining last).2 = remaining + 1 := by
  intro remaining
  induction remaining with
  | zero =>
    intro attempt last _
    refine ⟨by simp [retryGo], ?_⟩
    have hpre := spawnCount_retryPreEvents attempt m last
    simp only [spawnCount] at hpre
    simp [retryGo, spawnCount, List.countP_append, List.countP_cons, hpre]
  | succ remaining ih =>
    intro attempt last h
    have hfail : (oracle attempt).success = false := h attempt le_rfl (by omega)
    have hrec := ih (attempt + 1) (some (oracle attempt))
      (fun i h1 h2 => h i (by omega) (by omega))
    constructor
    · simp only [retryGo]
      rw [if_neg (by simp [hfail])]
      have harith : attempt + 1 + remaining = attempt + (remaining + 1) := by omega
      simpa [harith] using hrec.1
    · simp only [retryGo]
      rw [if_neg (by simp [hfail])]
      have hpre := spawnCount_retryPreEvents attempt m last
      simp only [spawnCount] at hpre hrec ⊢
      simp [List.countP_append, List.countP_cons, hpre, hrec.2]

/-- When the first successful attempt is `j`, the plain retry loop
stops there and has spawned once per attempt up to `j`. -/
lemma retryGo_first_success (oracle : Nat → WorkerResult) (m : Nat) :
    ∀ remaining attempt last j,
      attempt ≤ j → j ≤ attempt + remaining → (oracle j).success = true →
      (∀ i, attempt ≤ i → i < j → (oracle i).success = false) →
      (retryGo oracle m attempt remaining last).1 = oracle j
      ∧ spawnCount (retryGo oracle m attempt remaining last).2 = j + 1 - attempt := by
  intro remaining
  induction remaining with
  | zero =>
    intro attempt last j h1 h2 hs _
    have hj : j = attempt := by omega
    subst hj
    refine ⟨by simp [retryGo], ?_⟩
    have hpre := spawnCount_retryPreEvents j m last
    simp only [spawnCount] at hpre
    simp [retryGo, spawnCount, List.countP_append, List.countP_cons, hpre]
  | succ remaining ih =>
    intro attempt last j h1 h2 hs hmin
    by_cases hj : j = attempt
    · subst hj
      refine ⟨?_, ?_⟩
      · simp only [retryGo]
        rw [if_pos (by simp [hs])]
      · simp only [retryGo]
        rw [if_pos (by simp [hs])]
        have hpre := spawnCount_retryPreEvents j m last
        simp only [spawnCount] at hpre ⊢
        simp [List.countP_append, List.countP_cons, hpre]
    · have hlt : attempt < j := by omega
      have hfail : (oracle attempt).success = false := hmin attempt le_rfl hlt
      have hrec := ih (attempt + 1) (some (oracle attempt)) j (by omega) (by omega) hs
        (fun i hi1 hi2 => hmin i (by omega) hi2)
      refine ⟨?_, ?_⟩
      · simp only [retryGo]
        rw [if_neg (by simp [hfail])]
        exact hrec.1
      · simp only [retryGo]
        rw [if_neg (by simp [hfail])]
        have hpre := spawnCount_retryPreEvents attempt m last
        simp only [spawnCount] at hpre hrec ⊢
        simp [List.countP_append, List.countP_cons, hpre, hrec.2]
        omega

/-! ## Claim theorems -/

/-- C5: for every retry index k (k = 1, 2, 3, ...), the delay used
before the k-th retry equals `[0, 5000, 10000][min(k-1, 2)]`
milliseconds exactly: this is the value of `getRetryDelayMs (k - 1)`,
and every `worker:retrying` emission of the retry loop for retry
index k carries exactly that delay. -/
theorem retry_delay_schedule (k : Nat) (_hk : 1 ≤ k) :
    getRetryDelayMs (k - 1) = RETRY_DELAYS_MS.getD (min (k - 1) 2) 0
    ∧ ∀ (oracle : Nat → WorkerResult) (m mr d : Nat) (pe : String),
        RetryEvent.retrying k mr d pe ∈ (executeWorkerWithRetry oracle m).2 →
        d = getRetryDelayMs (k - 1) := by
  refine ⟨getRetryDelayMs_eq_min (k - 1), ?_⟩
  intro oracle m mr d pe h
  exact retrying_delay_retryGo oracle m m 0 none k mr d pe h

/-- Witness for C5 at k = 2 (second retry: 5000 ms). -/
theorem retry_delay_schedule_witness :
    getRetryDelayMs (2 - 1) = RETRY_DELAYS_MS.getD (min (2 - 1) 2) 0
    ∧ ∀ (oracle : Nat → WorkerResult) (m mr d : Nat) (pe : String),
        RetryEvent.retrying 2 mr d pe ∈ (executeWorkerWithRetry oracle m).2 →
        d = getRetryDelayMs (2 - 1) :=
  retry_delay_schedule 2 (by decide)

/-- C6: for every maxRetries and every oracle of attempt results, if
every attempt up to maxRetries fails then the retry wrapper invokes
the worker task exactly maxRetries + 1 times and returns the final
attempt; and if attempt j is the first success, it stops immediately
with that result after j + 1 invocations. -/
theorem executeWorkerWithRetry_attempt_count (oracle : Nat → WorkerResult) (maxRetries : Nat) :
    ((∀ i, i ≤ maxRetries → (oracle i).success = false) →
      (executeWorkerWithRetry oracle maxRetries).1 = oracle maxRetries
      ∧ spawnCount (executeWorkerWithRetry oracle maxRetries).2 = maxRetries + 1)
    ∧ (∀ j, j ≤ maxRetries → (oracle j).success = true →
        (∀ i, i < j → (oracle i).success = false) →
      (executeWorkerWithRetry oracle maxRetries).1 = oracle j
      ∧ spawnCount (executeWorkerWithRetry oracle maxRetries).2 = j + 1) := by
  constructor
  · intro h
    have := retryGo_all_fail oracle maxRetries maxRetries 0 none
      (fun i hi1 hi2 => h i (by omega))
    simpa [executeWorkerWithRetry] using this
  · intro j hj hs hmin
    have := retryGo_first_success oracle maxRetries maxRetries 0 none j (by omega) (by omega)
      hs (fun i _ hi2 => hmin i hi2)
    simpa [executeWorkerWithRetry] using this

/-- Witness for C6: an always-failing oracle with maxRetries = 2 runs
3 attempts and returns the last failure; an oracle succeeding at
attempt 1 stops after 2 attempts with the success. -/
theorem executeWorkerWithRetry_attempt_count_witness :
    ((executeWorkerWithRetry (fun _ => sampleFailure) 2).1 = (fun _ => sampleFailure) 2
      ∧ spawnCount (executeWorkerWithRetry (fun _ => sampleFailure) 2).2 = 2 + 1)
    ∧ ((executeWorkerWithRetry failThenSucceed 3).1 = failThenSucceed 1
      ∧ spawnCount (executeWorkerWithRetry failThenSucceed 3).2 = 1 + 1) :=
  ⟨(executeWorkerWithRetry_attempt_count (fun _ => sampleFailure) 2).1
      (fun i _ => by simp [sampleFailure]),
   (executeWorkerWithRetry_attempt_count failThenSucceed 3).2 1 (by decide)
      (by simp [failThenSucceed, sampleSuccess])
      (fun i hi => by
        interval_cases i
        simp [failThenSucceed, sampleFailure])⟩

/-- A spawn recorded by the TUI retry loop implies the cancellation
flag was clear at that attempt. -/
lemma spawn_mem_retryEventsGo (cancel : Nat → Bool) (oracle : Nat → WorkerResult)
    (group : FolderGrouping) (m : Nat) :
    ∀ remaining attempt last a,
      RetryEvent.spawn a ∈ (retryEventsGo cancel oracle group m attempt remaining last).2 →
      cancel a = false := by
  have hpre : ∀ b mm last a, RetryEvent.spawn a ∈ retryPreEvents b mm last → False := by
    intro b mm last a h
    unfold retryPreEvents at h
    split at h
    · simp at h
    · rcases List.mem_cons.mp h with h1 | h2
      · exact absurd h1 (by simp)
      · split at h2 <;> simp at h2
  have hatt : ∀ b a, RetryEvent.spawn a ∈ (executeSingleWorkerAttempt cancel oracle group b).2 →
      cancel a = false := by
    intro b a h
    unfold executeSingleWorkerAttempt at h
    split at h
    · simp at h
    · next hc =>
      rcases List.mem_singleton.mp h with h1
      injection h1 with h2
      subst h2
      exact Bool.of_not_eq_true hc
  intro remaining
  induction remaining with
  | zero =>
    intro attempt last a h
    simp only [retryEventsGo] at h
    rcases List.mem_append.mp h with h1 | h2
    · rcases List.mem_append.mp h1 with h3 | h4
      · exact absurd h3 (fun hx => hpre _ _ _ _ hx)
      · exact hatt attempt a h4
    · rcases List.mem_singleton.mp h2 with h3
      split at h3 <;> simp at h3
  | succ remaining ih =>
    intro attempt last a h
    simp only [retryEventsGo] at h
    split at h
    · rcases List.mem_append.mp h with h1 | h2
      · rcases List.mem_append.mp h1 with h3 | h4
        · exact absurd h3 (fun hx => hpre _ _ _ _ hx)
        · exact hatt attempt a h4
      · simp at h2
    · rcases List.mem_append.mp h with h1 | h2
      · rcases List.mem_append.mp h1 with h3 | h4
        · exact absurd h3 (fun hx => hpre _ _ _ _ hx)
        · exact hatt attempt a h4
      · exact ih (attempt + 1) _ a h2

/-- Under a permanently set cancellation flag, the TUI retry loop
still runs through every attempt, emitting one retrying event per
iteration after the first, and settles to the canceled result. -/
lemma retryEventsGo_all_canceled (cancel : Nat → Bool) (oracle : Nat → WorkerResult)
    (group : FolderGrouping) (m : Nat) (hc : ∀ i, cancel i = true) :
    ∀ remaining attempt last,
      (retryEventsGo cancel oracle group m attempt remaining last).1
        = canceledBeforeStartResult group
      ∧ retryingCount (retryEventsGo cancel oracle group m attempt remaining last).2
        = remaining + (if attempt = 0 then 0 else 1) := by
  intro remaining
  induction remaining with
  | zero =>
    intro attempt last
    have hstep : executeSingleWorkerAttempt cancel oracle group attempt
        = (canceledBeforeStartResult group, []) := by
      unfold executeSingleWorkerAttempt
      rw [if_pos (hc attempt)]
    refine ⟨by simp [retryEventsGo, hstep], ?_⟩
    have hp := retryingCount_retryPreEvents attempt m last
    simp only [retryingCount] at hp ⊢
    simp [retryEventsGo, hstep, canceledBeforeStartResult, List.countP_append,
      List.countP_cons, hp]
  | succ remaining ih =>
    intro attempt last
    have hstep : executeSingleWorkerAttempt cancel oracle group attempt
        = (canceledBeforeStartResult group, []) := by
      unfold executeSingleWorkerAttempt
      rw [if_pos (hc attempt)]
    have hrec := ih (attempt + 1) (some (canceledBeforeStartResult group))
    constructor
    · simp only [retryEventsGo, hstep]
      rw [if_neg (by simp [canceledBeforeStartResult])]
      simpa [hstep] using hrec.1
    · simp only [retryEventsGo, hstep]
      rw [if_neg (by simp [canceledBeforeStartResult])]
      have hp := retryingCount_retryPreEvents attempt m last
      simp only [retryingCount] at hp hrec ⊢
      simp [List.countP_append, hp, hstep, hrec.2]
      omega

/-- C2 counterexample: with the cancellation flag set from the start
(so every attempt ends after cancellation was invoked) and
maxRetries = 2, the TUI retry loop still emits `worker:retrying`
events and performs a 5000 ms backoff sleep: cancellation is not
checked before the retrying emission or the sleep. -/
theorem retrying_after_cancellation_cex :
    RetryEvent.retrying 1 2 0 "Canceled before starting"
      ∈ (executeWorkerWithEvents (fun _ => true) (fun _ => sampleFailure) sampleGroup 2).2
    ∧ RetryEvent.retrying 2 2 5000 "Canceled before starting"
      ∈ (executeWorkerWithEvents (fun _ => true) (fun _ => sampleFailure) sampleGroup 2).2
    ∧ RetryEvent.sleepMs 5000
      ∈ (executeWorkerWithEvents (fun _ => true) (fun _ => sampleFailure) sampleGroup 2).2 := by
  decide

/-- C2 amended: cancellation is checked only before spawning — a
process spawn recorded for attempt `a` implies the flag was clear at
that attempt, so no worker process starts after cancellation; but the
retry loop does not check the flag before emitting `worker:retrying`
or sleeping, so under a set flag it still emits one retrying event per
remaining attempt (maxRetries of them) before settling to a canceled
result. -/
theorem cancellation_checked_before_spawn_only (cancel : Nat → Bool)
    (oracle : Nat → WorkerResult) (group : FolderGrouping) (maxRetries : Nat) :
    (∀ a, RetryEvent.spawn a
        ∈ (executeWorkerWithEvents cancel oracle group maxRetries).2 →
      cancel a = false)
    ∧ ((∀ i, cancel i = true) →
      (executeWorkerWithEvents cancel oracle group maxRetries).1
        = canceledBeforeStartResult group
      ∧ (executeWorkerWithEvents cancel oracle group maxRetries).1.canceled = true
      ∧ retryingCount (executeWorkerWithEvents cancel oracle group maxRetries).2
        = maxRetries) := by
  constructor
  · intro a h
    exact spawn_mem_retryEventsGo cancel oracle group maxRetries maxRetries 0 none a h
  · intro hc
    have := retryEventsGo_all_canceled cancel oracle group maxRetries hc maxRetries 0 none
    refine ⟨this.1, ?_, ?_⟩
    · rw [executeWorkerWithEvents, this.1]
      rfl
    · simpa [executeWorkerWithEvents] using this.2

/-- Witness for C2 amended: with the flag clear, attempt 0 does spawn
and the theorem yields `false = false`; with the flag always set and
maxRetries = 2, the loop settles canceled with 2 retrying emissions. -/
theorem cancellation_checked_before_spawn_only_witness :
    ((fun _ => false : Nat → Bool) 0 = false)
    ∧ ((executeWorkerWithEvents (fun _ => true) (fun _ => sampleFailure) sampleGroup 2).1
        = canceledBeforeStartResult sampleGroup
      ∧ (executeWorkerWithEvents (fun _ => true) (fun _ => sampleFailure) sampleGroup 2).1.canceled
        = true
      ∧ retryingCount
          (executeWorkerWithEvents (fun _ => true) (fun _ => sampleFailure) sampleGroup 2).2
        = 2) :=
  ⟨(cancellation_checked_before_spawn_only (fun _ => false) (fun _ => sampleFailure)
      sampleGroup 2).1 0 (by decide),
   (cancellation_checked_before_spawn_only (fun _ => true) (fun _ => sampleFailure)
      sampleGroup 2).2 (fun i => rfl)⟩

/-- C1 counterexample: a join with one successful worker of duration
5 ms and a wall-clock total of 0 ms has divisor zero, yet
speedupFactor is Infinity, not 1: the guard tests the numerator
`sequentialDurationMs`, not the divisor. -/
theorem speedup_divisor_zero_cex :
    (joinExecutionSummary [sampleGroup] (fun _ => sampleSuccess) 0).totalDurationMs = 0
    ∧ (joinExecutionSummary [sampleGroup] (fun _ => sampleSuccess) 0).sequentialDurationMs = 5
    ∧ (joinExecutionSummary [sampleGroup] (fun _ => sampleSuccess) 0).speedupFactor = JsNum.inf
    ∧ JsNum.inf ≠ JsNum.num 1 := by
  decide

/-- C1 amended: at the join barrier the speedupFactor of the summary is
`sequentialDurationMs / totalDurationMs` computed with a guard on the
numerator: it is 1 whenever `sequentialDurationMs = 0`; when
`sequentialDurationMs > 0` it is the exact quotient for
`totalDurationMs > 0` and the unguarded division yields Infinity for
`totalDurationMs = 0`. -/
theorem speedup_guard_on_numerator (groupings : List FolderGrouping)
    (runWorker : FolderGrouping → WorkerResult) (totalDurationMs : Nat) :
    (joinExecutionSummary groupings runWorker totalDurationMs).speedupFactor
      = speedupFactor
          (joinExecutionSummary groupings runWorker totalDurationMs).sequentialDurationMs
          totalDurationMs
    ∧ (∀ seq total : Nat, seq = 0 → speedupFactor seq total = JsNum.num 1)
    ∧ (∀ seq total : Nat, 0 < seq → total = 0 → speedupFactor seq total = JsNum.inf)
    ∧ (∀ seq total : Nat, 0 < seq → 0 < total →
        speedupFactor seq total = JsNum.num ((seq : ℚ) / (total : ℚ))) := by
  refine ⟨rfl, ?_, ?_, ?_⟩
  · intro seq total h
    subst h
    simp [speedupFactor]
  · intro seq total h1 h2
    subst h2
    simp [speedupFactor, jsDivNat, h1, Nat.pos_iff_ne_zero.mp h1]
  · intro seq total h1 h2
    simp [speedupFactor, jsDivNat, h1, Nat.pos_iff_ne_zero.mp h2]

/-- Witness for C1 amended at (0, 7), (5, 0) and (6, 3). -/
theorem speedup_guard_on_numerator_witness :
    speedupFactor 0 7 = JsNum.num 1
    ∧ speedupFactor 5 0 = JsNum.inf
    ∧ speedupFactor 6 3 = JsNum.num ((6 : ℚ) / (3 : ℚ)) :=
  ⟨(speedup_guard_on_numerator [] (fun _ => sampleSuccess) 7).2.1 0 7 rfl,
   (speedup_guard_on_numerator [] (fun _ => sampleSuccess) 0).2.2.1 5 0 (by decide) rfl,
   (speedup_guard_on_numerator [] (fun _ => sampleSuccess) 3).2.2.2 6 3 (by decide) (by decide)⟩

/-- C3 counterexample: a summary with exactly one worker, successful
but with empty stdout, has successCount = 1, yet the merge still
returns the `No successful worker outputs to merge` failure: the
early-exit filter requires success and nonempty stdout. -/
theorem merge_error_despite_success_cex :
    (joinExecutionSummary [sampleGroup] (fun _ => sampleSuccessEmptyStdout) 10).successCount = 1
    ∧ mergeEarlyExit
        (joinExecutionSummary [sampleGroup] (fun _ => sampleSuccessEmptyStdout) 10).workers
        (some "/p/backup.md") 3
      = some { success := false
               error := some "No successful worker outputs to merge"
               backupPath := some "/p/backup.md"
               durationMs := 3 } := by
  decide

/-- C3 amended: the merge returns the
`No successful worker outputs to merge` failure exactly when no
worker both succeeded and produced nonempty stdout; in particular
successCount = 0 still implies this failure, and the returned record
carries that error and the backup path. -/
theorem mergeEarlyExit_characterization (workers : List WorkerResult)
    (backupPath : Option String) (durationMs : Nat) :
    ((mergeEarlyExit workers backupPath durationMs).isSome = true
      ↔ ∀ w ∈ workers, w.success = false ∨ w.stdout.isEmpty = true)
    ∧ ((workers.filter (fun w => w.success)).length = 0 →
        (mergeEarlyExit workers backupPath durationMs).isSome = true)
    ∧ (∀ r, mergeEarlyExit workers backupPath durationMs = some r →
        r.success = false
        ∧ r.error = some "No successful worker outputs to merge"
        ∧ r.backupPath = backupPath) := by
  have hiff : ((successfulWorkers workers).length == 0) = true
      ↔ ∀ w ∈ workers, w.success = false ∨ w.stdout.isEmpty = true := by
    rw [beq_iff_eq, List.length_eq_zero, successfulWorkers, List.filter_eq_nil_iff]
    constructor
    · intro h w hw
      have := h w hw
      rcases hs : w.success with _ | _
      · exact Or.inl rfl
      · rcases he : w.stdout.isEmpty with _ | _
        · exact absurd (by simp [hs, he]) this
        · exact Or.inr rfl
    · intro h w hw
      rcases h w hw with h1 | h1 <;> simp [h1]
  refine ⟨?_, ?_, ?_⟩
  · rw [mergeEarlyExit]
    split
    · next hcond => simpa [hcond] using hiff.mp hcond
    · next hcond =>
      simp only [Option.isSome_none, Bool.false_eq_true, false_iff]
      intro hall
      exact hcond (hiff.mpr hall)
  · intro h
    rw [mergeEarlyExit, if_pos]
    · rfl
    · refine hiff.mpr ?_
      have : workers.filter (fun w => w.success) = [] := List.length_eq_zero.mp h
      intro w hw
      rcases hs : w.success with _ | _
      · exact Or.inl rfl
      · have h2 := List.filter_eq_nil_iff.mp this w hw
        simp [hs] at h2
  · intro r hr
    rw [mergeEarlyExit] at hr
    split at hr
    · injection hr with h
      subst h
      exact ⟨rfl, rfl, rfl⟩
    · exact absurd hr (by simp)

/-- Witness for C3 amended: with one failed worker the early-exit
fires and carries the error and backup path; the successCount = 0
implication also fires there. -/
theorem mergeEarlyExit_characterization_witness :
    ((mergeEarlyExit [sampleFailure] (some "/p/backup.md") 3).isSome = true
      ↔ ∀ w ∈ [sampleFailure], w.success = false ∨ w.stdout.isEmpty = true)
    ∧ (mergeEarlyExit [sampleFailure] (some "/p/backup.md") 3).isSome = true
    ∧ ∀ r, mergeEarlyExit [sampleFailure] (some "/p/backup.md") 3 = some r →
        r.success = false
        ∧ r.error = some "No successful worker outputs to merge"
        ∧ r.backupPath = some "/p/backup.md" :=
  ⟨(mergeEarlyExit_characterization [sampleFailure] (some "/p/backup.md") 3).1,
   (mergeEarlyExit_characterization [sampleFailure] (some "/p/backup.md") 3).2.1 (by decide),
   (mergeEarlyExit_characterization [sampleFailure] (some "/p/backup.md") 3).2.2⟩

/-- Appending never disturbs a leading segment: the concatenation of
`a` and `b` starts with `a`. -/
lemma strStartsWith_append (a b : String) : strStartsWith (a ++ b) a = true := by
  rw [strStartsWith, String.data_append]
  induction a.data with
  | nil => simp [List.isPrefixOf]
  | cons x xs ih => simp [List.isPrefixOf, ih]

/-- C4 counterexample: at root `/proj` and instant
`2026-10-11T21:30:45.123Z`, the backup path produced by the source is
`/proj/.ralph-partial-outputs-2026-10-11T21-30-45.md`, which does not
start with `/proj/.partial-outputs-`, while any path of the claimed
pattern does start with that prefix (shown at the same instant). -/
theorem backup_path_prefix_cex :
    savePartialOutputsBackupPath "/proj" "2026-10-11T21:30:45.123Z"
      = "/proj/.ralph-partial-outputs-2026-10-11T21-30-45.md"
    ∧ strStartsWith (savePartialOutputsBackupPath "/proj" "2026-10-11T21:30:45.123Z")
        ("/proj" ++ "/" ++ ".partial-outputs-") = false
    ∧ strStartsWith (specClaimedBackupPath "/proj" "2026-10-11T21-30-45")
        ("/proj" ++ "/" ++ ".partial-outputs-") = true := by
  refine ⟨by decide, by decide, by decide⟩

/-- C4 amended: for every merge invocation the backup artifact path is
`<root>/.ralph-partial-outputs-<timestamp>.md`, where the timestamp is
the ISO-8601 instant with `:` and `.` replaced by `-` and truncated to
19 characters; in particular every backup path starts with
`<root>/.ralph-partial-outputs-`. -/
theorem backup_path_pattern (root isoNow : String) :
    savePartialOutputsBackupPath root isoNow = specAmendedBackupPath root isoNow
    ∧ strStartsWith (savePartialOutputsBackupPath root isoNow)
        (root ++ "/" ++ ".ralph-partial-outputs-") = true := by
  refine ⟨rfl, ?_⟩
  have h : savePartialOutputsBackupPath root isoNow
      = (root ++ "/" ++ ".ralph-partial-outputs-") ++ (backupTimestamp isoNow ++ ".md") := by
    rw [savePartialOutputsBackupPath]
    rw [String.append_assoc, String.append_assoc]
  rw [h]
  exact strStartsWith_append _ _

/-- A list of worker results is partitioned by the success flag. -/
lemma filter_success_partition (l : List WorkerResult) :
    (l.filter (fun w => w.success)).length + (l.filter (fun w => !w.success)).length
      = l.length := by
  induction l with
  | nil => rfl
  | cons w l ih =>
    rcases hs : w.success with _ | _ <;> simp [List.filter_cons, hs] <;> omega

/-- C7: at every join, successCount + failedCount = workerCount;
moreover successCount counts exactly the workers with success = true,
failedCount counts exactly those with success = false (canceled
records included, since their success flag is false), and the worker
list itself has workerCount records: every record is counted in
exactly one of the two totals. -/
theorem join_counts_partition (groupings : List FolderGrouping)
    (runWorker : FolderGrouping → WorkerResult) (totalDurationMs : Nat) :
    (joinExecutionSummary groupings runWorker totalDurationMs).successCount
      + (joinExecutionSummary groupings runWorker totalDurationMs).failedCount
      = (joinExecutionSummary groupings runWorker totalDurationMs).workerCount
    ∧ (joinExecutionSummary groupings runWorker totalDurationMs).successCount
      = ((joinExecutionSummary groupings runWorker totalDurationMs).workers.filter
          (fun w => w.success)).length
    ∧ (joinExecutionSummary groupings runWorker totalDurationMs).failedCount
      = ((joinExecutionSummary groupings runWorker totalDurationMs).workers.filter
          (fun w => !w.success)).length
    ∧ (joinExecutionSummary groupings runWorker totalDurationMs).workers.length
      = (joinExecutionSummary groupings runWorker totalDurationMs).workerCount := by
  refine ⟨?_, rfl, rfl, by simp [joinExecutionSummary]⟩
  have := filter_success_partition (groupings.map runWorker)
  simpa [joinExecutionSummary] using this

/-- C8: for every completed worker attempt, success holds exactly when
the exit code is 0 and the result is not canceled, and a failed result
always carries an error message. The three result constructors are the
close handler and the pre-spawn cancellation shortcut of
`executeSingleWorkerAttempt`, the spawn-failure handler, and the close
handler of the plain `executeWorker`. -/
theorem worker_result_success_characterization (group : FolderGrouping)
    (sA cA : String) (d : Nat) (out err : String) (code : Option Int)
    (signal : Option ExitSignal) (isCanceling : Bool) (msg : String) :
    ((singleAttemptCloseResult group sA cA d out err code signal isCanceling).success = true
      ↔ (code = some 0
        ∧ (singleAttemptCloseResult group sA cA d out err code signal isCanceling).canceled
            = false))
    ∧ ((singleAttemptCloseResult group sA cA d out err code signal isCanceling).success = false →
        (singleAttemptCloseResult group sA cA d out err code signal isCanceling).error ≠ none)
    ∧ ((executeWorkerCloseResult group sA cA d out err code).success = true
      ↔ (code = some 0
        ∧ (executeWorkerCloseResult group sA cA d out err code).canceled = false))
    ∧ ((executeWorkerCloseResult group sA cA d out err code).success = false →
        (executeWorkerCloseResult group sA cA d out err code).error ≠ none)
    ∧ (singleAttemptSpawnErrorResult group sA cA d out err msg).success = false
    ∧ (singleAttemptSpawnErrorResult group sA cA d out err msg).error ≠ none
    ∧ (canceledBeforeStartResult group).success = false
    ∧ (canceledBeforeStartResult group).canceled = true
    ∧ (canceledBeforeStartResult group).error ≠ none := by
  refine ⟨?_, ?_, ?_, ?_, rfl, by simp [singleAttemptSpawnErrorResult], rfl, rfl,
    by simp [canceledBeforeStartResult]⟩
  · rcases hb : (isCanceling || signal == some ExitSignal.sigterm
        || signal == some ExitSignal.sigkill) with _ | _ <;>
      simp [singleAttemptCloseResult, hb]
  · intro h
    simp only [singleAttemptCloseResult] at h ⊢
    rcases hb : (isCanceling || signal == some ExitSignal.sigterm
        || signal == some ExitSignal.sigkill) with _ | _
    · rcases hc : (code == some 0) with _ | _
      · simp [hb, hc]
      · simp [hb, hc] at h
    · simp [hb]
  · simp [executeWorkerCloseResult]
  · intro h
    simp only [executeWorkerCloseResult] at h ⊢
    rcases hc : (code == some 0) with _ | _
    · simp [hc]
    · simp [hc] at h

/-- Witness for C8: a clean exit with code 0 is a success; exit code 1
yields a failure with an error message; the same holds for the plain
close handler. -/
theorem worker_result_success_characterization_witness :
    (singleAttemptCloseResult sampleGroup "" "" 3 "" "" (some 0) none false).success = true
    ∧ (singleAttemptCloseResult sampleGroup "" "" 3 "" "" (some 1) none false).error ≠ none
    ∧ (executeWorkerCloseResult sampleGroup "" "" 3 "" "" (some 1)).error ≠ none :=
  ⟨(worker_result_success_characterization sampleGroup "" "" 3 "" "" (some 0) none false
      "m").1.mpr ⟨rfl, by decide⟩,
   (worker_result_success_characterization sampleGroup "" "" 3 "" "" (some 1) none false
      "m").2.1 (by decide),
   (worker_result_success_characterization sampleGroup "" "" 3 "" "" (some 1) none false
      "m").2.2.2.1 (by decide)⟩

/-- Any line of any worker entry appears among the backup lines. -/
lemma entry_line_mem_backupLines (ws : List WorkerResult) (iso : String)
    (w : WorkerResult) (hw : w ∈ ws) (x : String) (hx : x ∈ workerEntryLines w) :
    x ∈ savePartialOutputsBackupLines ws iso := by
  unfold savePartialOutputsBackupLines savePartialOutputsBackupEntries
  refine List.mem_append.mpr (Or.inr ?_)
  exact List.mem_flatten.mpr ⟨workerEntryLines w, List.mem_map_of_mem _ hw, hx⟩

/-- C9: the backup artifact has exactly one entry per worker record —
the entry list is a map over the workers of the summary, with no filtering
by status — and for every worker its header, status, duration and
folders lines are present among the backup lines, along with its raw
stdout, stderr, and error message whenever those are (truthily)
present. -/
theorem backup_one_entry_per_worker (ws : List WorkerResult) (iso : String) :
    (savePartialOutputsBackupEntries ws).length = ws.length
    ∧ ∀ w, w ∈ ws →
        ("## Worker: " ++ w.groupName) ∈ savePartialOutputsBackupLines ws iso
        ∧ ("- **Status**: " ++ (if w.success then "✓ Success" else "✗ Failed"))
            ∈ savePartialOutputsBackupLines ws iso
        ∧ ("- **Duration**: " ++ toFixed2Seconds w.durationMs ++ "s")
            ∈ savePartialOutputsBackupLines ws iso
        ∧ ("- **Folders**: " ++ String.intercalate ", " w.folders)
            ∈ savePartialOutputsBackupLines ws iso
        ∧ (w.stdout.isEmpty = false → w.stdout ∈ savePartialOutputsBackupLines ws iso)
        ∧ (w.stderr.isEmpty = false → w.stderr.trim.isEmpty = false →
            w.stderr ∈ savePartialOutputsBackupLines ws iso)
        ∧ (∀ e, w.error = some e → e.isEmpty = false →
            ("**Error**: " ++ e) ∈ savePartialOutputsBackupLines ws iso) := by
  refine ⟨by simp [savePartialOutputsBackupEntries], ?_⟩
  intro w hw
  refine ⟨?_, ?_, ?_, ?_, ?_, ?_, ?_⟩
  · exact entry_line_mem_backupLines ws iso w hw _ (by simp [workerEntryLines])
  · exact entry_line_mem_backupLines ws iso w hw _ (by simp [workerEntryLines])
  · exact entry_line_mem_backupLines ws iso w hw _ (by simp [workerEntryLines])
  · exact entry_line_mem_backupLines ws iso w hw _ (by simp [workerEntryLines])
  · intro h
    exact entry_line_mem_backupLines ws iso w hw _ (by simp [workerEntryLines, h])
  · intro h1 h2
    exact entry_line_mem_backupLines ws iso w hw _ (by simp [workerEntryLines, h1, h2])
  · intro e he hne
    exact entry_line_mem_backupLines ws iso w hw _ (by simp [workerEntryLines, he, hne])

/-- Witness for C9 on a two-worker summary (one failed, one
successful): two entries, and the header of the successful worker and raw
stdout are among the backup lines. -/
theorem backup_one_entry_per_worker_witness :
    (savePartialOutputsBackupEntries [sampleFailure, sampleSuccess]).length = 2
    ∧ ("## Worker: " ++ sampleSuccess.groupName)
        ∈ savePartialOutputsBackupLines [sampleFailure, sampleSuccess] "2026-10-11"
    ∧ sampleSuccess.stdout
        ∈ savePartialOutputsBackupLines [sampleFailure, sampleSuccess] "2026-10-11" :=
  ⟨(backup_one_entry_per_worker [sampleFailure, sampleSuccess] "2026-10-11").1,
   ((backup_one_entry_per_worker [sampleFailure, sampleSuccess] "2026-10-11").2
      sampleSuccess (by decide)).1,
   ((backup_one_entry_per_worker [sampleFailure, sampleSuccess] "2026-10-11").2
      sampleSuccess (by decide)).2.2.2.2.1 (by decide)⟩

/-- C10: the event-listener registry behaves as a set — subscribing an
already-subscribed listener leaves the registry unchanged, emit then
invokes that listener exactly once, the registry stays duplicate-free,
and unsubscribing twice (or unsubscribing an absent listener) leaves
the registry unchanged. -/
theorem eventBus_subscribe_idempotent (l : Nat) (s : List Nat) (hs : s.Nodup) :
    subscribe l (subscribe l s) = subscribe l s
    ∧ (emitCalls (subscribe l s)).count l = 1
    ∧ (subscribe l s).Nodup
    ∧ unsubscribe l (unsubscribe l s) = unsubscribe l s
    ∧ (l ∉ s → unsubscribe l s = s)
    ∧ (unsubscribe l s).Nodup := by
  refine ⟨?_, ?_, ?_, ?_, ?_, ?_⟩
  · by_cases h : l ∈ s
    · simp [subscribe, h]
    · simp [subscribe, h]
  · by_cases h : l ∈ s
    · simp only [subscribe, if_pos h, emitCalls]
      exact List.count_eq_one_of_mem hs h
    · simp [subscribe, h, emitCalls, List.count_append,
        List.count_eq_zero_of_not_mem h]
  · by_cases h : l ∈ s
    · simpa [subscribe, h] using hs
    · simp [subscribe, h, List.nodup_append, hs, List.disjoint_singleton]
  · have hnot : l ∉ s.erase l := fun hmem =>
      ((List.Nodup.mem_erase_iff hs).mp hmem).1 rfl
    simp [unsubscribe, List.erase_of_not_mem hnot]
  · intro h
    simp [unsubscribe, List.erase_of_not_mem h]
  · exact hs.erase l

/-- Witness for C10 at listener 1 over registry [0]. -/
theorem eventBus_subscribe_idempotent_witness :
    subscribe 1 (subscribe 1 [0]) = subscribe 1 [0]
    ∧ (emitCalls (subscribe 1 [0])).count 1 = 1
    ∧ unsubscribe 1 (unsubscribe 1 [0]) = unsubscribe 1 [0] :=
  ⟨(eventBus_subscribe_idempotent 1 [0] (by decide)).1,
   (eventBus_subscribe_idempotent 1 [0] (by decide)).2.1,
   (eventBus_subscribe_idempotent 1 [0] (by decide)).2.2.2.1⟩

end RalphTui
